import Mathlib

/-!
Verification development for the MouseWiggler firmware (`MouseWiggler.ino`).

The firmware has two timer-driven routines sharing one boolean:

* `readAnalogIntoArray` samples a photocell into a 100-slot ring buffer and,
  each time the buffer wraps, runs a classification cycle that may update the
  shared `lightStatus` flag (sudden light changes toggle it, gradual drift is
  ignored);
* `sendWiggle` fires on a randomized interval and, when `lightStatus` is true,
  emits a one-unit mouse movement followed by its exact opposite.

This file embeds those routines as pure Lean functions.  Machine `signed long`
arithmetic is modelled by `Int` with C's truncating division `Int.tdiv`; for
the 10-bit ADC readings involved, none of the 32-bit intermediate values can
overflow, so no `% 2^32` reduction is needed.  Calls to `analogRead` and
`random` are modelled as explicit input parameters, `Serial.println` as a list
of emitted log events, and `Mouse.move` as a list of emitted `(dx, dy)`
deltas.
-/

namespace MouseWiggler

/-- `#define SUDDEN_CHANGE_THRESHOLD 15` (percent), line 58 of the source. -/
def SUDDEN_CHANGE_THRESHOLD : Int := 15

/-- `#define CHANGE_RATE_THRESHOLD 5` (percent per sample period), line 66. -/
def CHANGE_RATE_THRESHOLD : Int := 5

/-- `#define wigglePeriod 10` (seconds), line 70. -/
def wigglePeriod : Int := 10

/-- `#define wigglePeriodVariation 3` (seconds), line 73. -/
def wigglePeriodVariation : Int := 3

/-- `#define SizeOfAnalogArray 100`, line 76. -/
abbrev SizeOfAnalogArray : Nat := 100

/-- `#define HISTORY_SIZE 5`, line 79. -/
abbrev HISTORY_SIZE : Nat := 5

/-- The classifier's mutable globals (lines 89–102 of the source):
`priorSum`, `sumHistory[HISTORY_SIZE]`, `historyPosition`, `historyFilled`
and the shared `lightStatus` flag. -/
structure DetectState where
  priorSum : Int
  sumHistory : Fin HISTORY_SIZE → Int
  historyPosition : Fin HISTORY_SIZE
  historyFilled : Bool
  lightStatus : Bool

/-- Lines 209–210: `percentChange = (sum - priorSum) * 100 / priorSum`,
with C's truncating `signed long` division. -/
def percentChangeOf (priorSum sum : Int) : Int :=
  Int.tdiv ((sum - priorSum) * 100) priorSum

/-- Lines 214–216: `rateOfChange = (sum - oldestSum) * 100 / (oldestSum *
HISTORY_SIZE)`, with C's truncating `signed long` division. -/
def rateOfChangeOf (oldestSum sum : Int) : Int :=
  Int.tdiv ((sum - oldestSum) * 100) (oldestSum * (HISTORY_SIZE : Int))

/-- One classification cycle of `readAnalogIntoArray` (lines 199–266), i.e.
the body of `if (!AnalogArrayPosition) { ... }` given the freshly computed
window sum `sum`: compute `percentChange` and `rateOfChange`, push `sum` into
the history ring (setting `historyFilled` on wrap), record `priorSum`, and —
only when the history is filled — run the dual-criteria classification that
may update `lightStatus`.  Serial output is modelled separately by
`cycleEvents`. -/
def classifyCycle (s : DetectState) (sum : Int) : DetectState :=
  let percentChange := percentChangeOf s.priorSum sum
  let oldestSum := s.sumHistory s.historyPosition
  let rateOfChange := rateOfChangeOf oldestSum sum
  let sumHistory' := Function.update s.sumHistory s.historyPosition sum
  let historyPosition' := s.historyPosition + 1
  let historyFilled' := if historyPosition' = 0 then true else s.historyFilled
  let lightStatus' :=
    if historyFilled' = true then
      if percentChange > SUDDEN_CHANGE_THRESHOLD ∧
          |rateOfChange| > CHANGE_RATE_THRESHOLD then
        true
      else if percentChange < -SUDDEN_CHANGE_THRESHOLD ∧
          |rateOfChange| > CHANGE_RATE_THRESHOLD then
        false
      else s.lightStatus
    else s.lightStatus
  { priorSum := sum
    sumHistory := sumHistory'
    historyPosition := historyPosition'
    historyFilled := historyFilled'
    lightStatus := lightStatus' }

/-- The kinds of `Serial.println` lines a classification cycle can emit
(contents abstracted): the unconditional diagnostic line (line 236), `"Lights
Detected ON (sudden change)"` (line 244), `"Lights Detected OFF (sudden
change)"` (line 251), and `"Gradual change ignored (...)"` (line 263). -/
inductive LogEvent where
  | diag
  | suddenOn
  | suddenOff
  | gradualIgnored
deriving DecidableEq

/-- The log lines emitted by one classification cycle (lines 224–265), in
order, assuming the serial port is connected (`if (Serial)` true).  The
branch structure mirrors `classifyCycle`; the third branch (line 256) uses
the literal `5` from `abs(percentChange) > 5` in the source. -/
def cycleEvents (s : DetectState) (sum : Int) : List LogEvent :=
  let percentChange := percentChangeOf s.priorSum sum
  let oldestSum := s.sumHistory s.historyPosition
  let rateOfChange := rateOfChangeOf oldestSum sum
  let historyFilled' :=
    if s.historyPosition + 1 = (0 : Fin HISTORY_SIZE) then true else s.historyFilled
  LogEvent.diag ::
    (if historyFilled' = true then
      if percentChange > SUDDEN_CHANGE_THRESHOLD ∧
          |rateOfChange| > CHANGE_RATE_THRESHOLD then
        [LogEvent.suddenOn]
      else if percentChange < -SUDDEN_CHANGE_THRESHOLD ∧
          |rateOfChange| > CHANGE_RATE_THRESHOLD then
        [LogEvent.suddenOff]
      else if |percentChange| > 5 ∧ |rateOfChange| ≤ CHANGE_RATE_THRESHOLD then
        [LogEvent.gradualIgnored]
      else []
    else [])

/-- The scheduler's mutable globals (lines 106–109): `wiggleSec` and
`nextWiggleTime` (both C `int`), with `nextWiggleTime` initialized to
`wigglePeriod`. -/
structure WiggleState where
  wiggleSec : Int
  nextWiggleTime : Int

/-- One invocation of the Timer3 ISR `sendWiggle` (lines 278–325).  `light`
is the value of `lightStatus` read at this tick; `rnd` models the return
value of `random(-wigglePeriodVariation, wigglePeriodVariation + 1)` (drawn
only when the trigger fires) and `rx`, `ry` model the two `random(2)` draws.
Returns the new timer state together with the list of `Mouse.move (dx, dy)`
deltas requested (the `delay(1)` hold between the two moves and the LED
writes are I/O effects outside the model). -/
def sendWiggle (s : WiggleState) (light : Bool) (rnd : Int) (rx ry : Nat) :
    WiggleState × List (Int × Int) :=
  let wiggleSec := s.wiggleSec + 1
  if wiggleSec ≥ s.nextWiggleTime then
    let nxt := wigglePeriod + rnd
    let nextWiggleTime := if nxt < 3 then 3 else nxt
    if light = true then
      let moveX : Int := if rx = 0 then 1 else -1
      let moveY : Int := if ry = 0 then 1 else -1
      ({ wiggleSec := 0, nextWiggleTime := nextWiggleTime },
        [(moveX, moveY), (-moveX, -moveY)])
    else
      ({ wiggleSec := 0, nextWiggleTime := nextWiggleTime }, [])
  else
    ({ wiggleSec := wiggleSec, nextWiggleTime := s.nextWiggleTime }, [])

/-- The `setup()` pre-fill loop, lines 132–133:
`for (int counter = 0; counter < SizeOfAnalogArray; counter++)
AnalogArray[counter++] = analogRead(photoCellSense);` — note that `counter`
is incremented both in the loop header and inside `AnalogArray[counter++]`.
`reads r` is the value returned by the `r`-th `analogRead` call; the loop is
unrolled on an explicit fuel (`SizeOfAnalogArray` steps always suffice since
`counter` grows every iteration). -/
def fillLoop (reads : Nat → Int) : Nat → (Nat → Int) → Nat → Nat → (Nat → Int)
  | 0, arr, _, _ => arr
  | fuel + 1, arr, counter, r =>
    if counter < SizeOfAnalogArray then
      fillLoop reads fuel (Function.update arr counter (reads r)) (counter + 2) (r + 1)
    else arr

/-- The contents of `AnalogArray` after the `setup()` pre-fill loop.  The
global array starts zero-initialized (C++ static initialization). -/
def setupAnalogArray (reads : Nat → Int) : Nat → Int :=
  fillLoop reads SizeOfAnalogArray (fun _ => 0) 0 0

/-- Lines 136–138: `initialSum`, the sum of `AnalogArray` after the pre-fill
loop. -/
def setupInitialSum (reads : Nat → Int) : Int :=
  ((List.range SizeOfAnalogArray).map (setupAnalogArray reads)).sum

/-- The classifier state right after `setup()` (lines 89–102 and 140–143):
`sumHistory` filled with `initialSum`, `priorSum = initialSum`,
`historyPosition = 0`, `historyFilled = false`, `lightStatus = true`. -/
def setupDetectState (reads : Nat → Int) : DetectState :=
  { priorSum := setupInitialSum reads
    sumHistory := fun _ => setupInitialSum reads
    historyPosition := 0
    historyFilled := false
    lightStatus := true }

/-- A primed steady state: every history slot and `priorSum` hold the same
window sum `v`, `historyFilled` is set, the flag is `b`.  This is the state
the classifier reaches after at least `HISTORY_SIZE` cycles of a constant
light level. -/
def steadyState (v : Int) (b : Bool) : DetectState :=
  { priorSum := v
    sumHistory := fun _ => v
    historyPosition := 0
    historyFilled := true
    lightStatus := b }

/-- The window sum after `k` cycles of the rising (dawn-direction) linear
drift: baseline `100 * d` plus `d` (one percent of the baseline) per
cycle. -/
def duskSum (d : Int) (k : Nat) : Int := 100 * d + d * k

/-- The classifier state after `k` cycles of the rising (dawn-direction)
linear drift: start primed at baseline `100 * d` with flag `b`, then feed
the window sums `duskSum d 1`, `duskSum d 2`, …. -/
def duskState (d : Int) (b : Bool) : Nat → DetectState
  | 0 => steadyState (duskSum d 0) b
  | k + 1 => classifyCycle (duskState d b k) (duskSum d (k + 1))

/-- The classifier state after `k` cycles of the decreasing (dusk-direction)
linear drift: start primed at baseline `100 * d` with flag `b`, then feed
window sums falling by `d` (one percent of the baseline) per cycle. -/
def duskFall (d : Int) (b : Bool) : Nat → DetectState
  | 0 => steadyState (100 * d) b
  | k + 1 => classifyCycle (duskFall d b k) (100 * d - d * (k + 1))

/-- The classifier state after `k` cycles of the light-switch simulation:
start primed at baseline `B = 10 * c` with flag `b`, then the window sum
jumps to `1.3 × B = 13 * c` in one cycle and stays there. -/
def switchState (c : Int) (b : Bool) : Nat → DetectState
  | 0 => steadyState (10 * c) b
  | k + 1 => classifyCycle (switchState c b k) (13 * c)

/-- Concrete primed state for the spec's sudden-increase scenario:
`priorSum = 45200` with a constant history of `45200`, flag currently off. -/
def c1state : DetectState := steadyState 45200 false

/-- Concrete primed state with a negative `priorSum` and a small positive
oldest history sum, exercising the classifier's division by a negative
reference value. -/
def c2state : DetectState :=
  { priorSum := -100
    sumHistory := fun _ => 10
    historyPosition := 0
    historyFilled := true
    lightStatus := true }

/-- Concrete unprimed state (`historyFilled = false`, `historyPosition = 0`)
as left by `setup()`, with a large pending change in the window sum. -/
def c3state : DetectState :=
  { priorSum := 100
    sumHistory := fun _ => 100
    historyPosition := 0
    historyFilled := false
    lightStatus := true }

/-- Helper: when the history is already filled at the start of a cycle, the
new `lightStatus` is exactly the dual-criteria classification of
`percentChange` and `rateOfChange`, with the flag kept in all other cases. -/
lemma classifyCycle_lightStatus (s : DetectState) (sum : Int)
    (hf : s.historyFilled = true) :
    (classifyCycle s sum).lightStatus =
      if percentChangeOf s.priorSum sum > SUDDEN_CHANGE_THRESHOLD ∧
          |rateOfChangeOf (s.sumHistory s.historyPosition) sum| >
            CHANGE_RATE_THRESHOLD then true
      else if percentChangeOf s.priorSum sum < -SUDDEN_CHANGE_THRESHOLD ∧
          |rateOfChangeOf (s.sumHistory s.historyPosition) sum| >
            CHANGE_RATE_THRESHOLD then false
      else s.lightStatus := by
  simp only [classifyCycle, hf, ite_self, if_true]

/-- Helper: when the history is already filled and the sudden-increase
condition holds, the cycle's log contains the `"Lights Detected ON"` line. -/
lemma cycleEvents_suddenOn (s : DetectState) (sum : Int)
    (hf : s.historyFilled = true)
    (hc : percentChangeOf s.priorSum sum > SUDDEN_CHANGE_THRESHOLD ∧
      |rateOfChangeOf (s.sumHistory s.historyPosition) sum| >
        CHANGE_RATE_THRESHOLD) :
    LogEvent.suddenOn ∈ cycleEvents s sum := by
  simp only [cycleEvents, hf, ite_self, if_true, if_pos hc]
  simp

/-- C1: after the sum history is primed, a classification cycle with positive
`priorSum` and positive evicted oldest history sum sets the illuminated flag
to true exactly when `percentChange > 15` and `|rateOfChange| > 5`, sets it
to false exactly when `percentChange < -15` and `|rateOfChange| > 5`, and
leaves it unchanged otherwise; in the first case the sudden-change ON log
line is emitted. -/
theorem sudden_change_classification (s : DetectState) (sum : Int)
    (hf : s.historyFilled = true)
    (hp : 0 < s.priorSum) (ho : 0 < s.sumHistory s.historyPosition) :
    ((classifyCycle s sum).lightStatus =
      if percentChangeOf s.priorSum sum > SUDDEN_CHANGE_THRESHOLD ∧
          |rateOfChangeOf (s.sumHistory s.historyPosition) sum| >
            CHANGE_RATE_THRESHOLD then true
      else if percentChangeOf s.priorSum sum < -SUDDEN_CHANGE_THRESHOLD ∧
          |rateOfChangeOf (s.sumHistory s.historyPosition) sum| >
            CHANGE_RATE_THRESHOLD then false
      else s.lightStatus) ∧
    (percentChangeOf s.priorSum sum > SUDDEN_CHANGE_THRESHOLD ∧
        |rateOfChangeOf (s.sumHistory s.historyPosition) sum| >
          CHANGE_RATE_THRESHOLD →
      LogEvent.suddenOn ∈ cycleEvents s sum) :=
  ⟨classifyCycle_lightStatus s sum hf, cycleEvents_suddenOn s sum hf⟩

/-- Witness for C1, the spec's concrete scenario: `priorSum = 45200`, new
`sum = 67800` gives `percentChange = 50` exactly; with a primed constant
history of `45200` the rate is `10 > 5`, so the flag (previously off) turns
on and the sudden-change ON log line is emitted. -/
theorem sudden_change_classification_witness :
    percentChangeOf 45200 67800 = 50 ∧
    (classifyCycle c1state 67800).lightStatus = true ∧
    LogEvent.suddenOn ∈ cycleEvents c1state 67800 := by
  have h := sudden_change_classification c1state 67800 (by decide) (by decide)
    (by decide)
  refine ⟨by decide, ?_, h.2 (by decide)⟩
  rw [h.1]
  decide

/-- C2 counterexample: a classification cycle whose `priorSum` is negative is
not skipped — the code has no sign/zero guard.  With `priorSum = -100`, an
oldest history sum of `10` and a new window sum of `100`, the truncating
divisions yield `percentChange = -200` and `rateOfChange = 180`, so the
cycle classifies and flips the illuminated flag from true to false instead
of keeping its prior value. -/
theorem negative_prior_not_skipped_cex :
    c2state.priorSum < 0 ∧ c2state.lightStatus = true ∧
    (classifyCycle c2state 100).lightStatus = false := by
  decide

/-- C2 amended: the classifier has no guard at all on `priorSum` or the
evicted oldest history sum — the divisions and the classification run
unconditionally on every primed cycle.  For any nonzero reference values
(negative ones included) the truncating divisions are performed and the flag
is set by the usual dual-criteria test, so a negative reference sum can
still change the flag; only a zero reference would make the C division
undefined, and the code does not guard against that either. -/
theorem classification_unguarded (s : DetectState) (sum : Int)
    (hf : s.historyFilled = true)
    (hp : s.priorSum ≠ 0) (ho : s.sumHistory s.historyPosition ≠ 0) :
    (classifyCycle s sum).lightStatus =
      if percentChangeOf s.priorSum sum > SUDDEN_CHANGE_THRESHOLD ∧
          |rateOfChangeOf (s.sumHistory s.historyPosition) sum| >
            CHANGE_RATE_THRESHOLD then true
      else if percentChangeOf s.priorSum sum < -SUDDEN_CHANGE_THRESHOLD ∧
          |rateOfChangeOf (s.sumHistory s.historyPosition) sum| >
            CHANGE_RATE_THRESHOLD then false
      else s.lightStatus :=
  classifyCycle_lightStatus s sum hf

/-- Witness for the amended C2: at the negative-`priorSum` state the
characterization applies and evaluates to a changed flag. -/
theorem classification_unguarded_witness :
    c2state.priorSum ≠ 0 ∧ (classifyCycle c2state 100).lightStatus = false := by
  have h := classification_unguarded c2state 100 (by decide) (by decide)
    (by decide)
  refine ⟨by decide, ?_⟩
  rw [h]
  decide

/-- C3: a classification cycle after which the history buffer has still not
completed its first full wrap leaves the illuminated flag unchanged, and
once `historyFilled` is set it stays set, so classification is enabled from
the priming cycle onwards.  Since `historyFilled` starts false and is only
ever set on a wrap, this is exactly the priming invariant over any
execution. -/
theorem priming_invariant (s : DetectState) (sum : Int) :
    ((classifyCycle s sum).historyFilled = false →
      (classifyCycle s sum).lightStatus = s.lightStatus) ∧
    (s.historyFilled = true → (classifyCycle s sum).historyFilled = true) := by
  constructor
  · intro h
    simp only [classifyCycle] at h ⊢
    rw [h]
    simp
  · intro h
    simp only [classifyCycle, h, ite_self]

/-- Witness for C3: from the state `setup()` leaves (`historyPosition = 0`,
`historyFilled = false`), one cycle with a 5x jump in the window sum does not
touch the flag; and a cycle from a primed state keeps `historyFilled` set. -/
theorem priming_invariant_witness :
    (classifyCycle c3state 500).lightStatus = c3state.lightStatus ∧
    (classifyCycle (steadyState 100 true) 7).historyFilled = true := by
  have h1 := priming_invariant c3state 500
  have h2 := priming_invariant (steadyState 100 true) 7
  exact ⟨h1.1 (by decide), h2.2 (by decide)⟩

/-- Helper: the `setup()` pre-fill loop never writes an odd index — `counter`
starts even and grows by 2 per iteration — so odd slots keep whatever the
array held before the loop. -/
lemma fillLoop_odd_untouched (reads : Nat → Int) (fuel : Nat) :
    ∀ (arr : Nat → Int) (counter r i : Nat), i % 2 = 1 → counter % 2 = 0 →
      fillLoop reads fuel arr counter r i = arr i := by
  induction fuel with
  | zero => intro arr counter r i hi hc; rfl
  | succ fuel ih =>
    intro arr counter r i hi hc
    simp only [fillLoop]
    split
    · rw [ih _ _ _ _ hi (by omega)]
      exact Function.update_noteq (by omega) _ _
    · rfl

/-- C4 refutation: the pre-fill loop increments `counter` both in the `for`
header and inside `AnalogArray[counter++]`, so it fills only the even slots
`0, 2, …, 98`; every odd slot keeps its zero static initialization no matter
what the sensor returns.  Concretely, with every `analogRead` returning
`500`, slots `0` and `98` hold `500` but slots `1` and `99` hold `0`, which
is not a sensor reading. -/
theorem setup_prefill_bug :
    (∀ reads : Nat → Int,
      setupAnalogArray reads 1 = 0 ∧ setupAnalogArray reads 99 = 0) ∧
    setupAnalogArray (fun _ => 500) 0 = 500 ∧
    setupAnalogArray (fun _ => 500) 98 = 500 ∧
    setupAnalogArray (fun _ => 500) 1 = 0 ∧
    setupAnalogArray (fun _ => 500) 99 = 0 := by
  refine ⟨fun reads => ⟨?_, ?_⟩, by decide, by decide, by decide, by decide⟩ <;>
    exact fillLoop_odd_untouched reads _ _ _ _ _ (by decide) (by decide)

/-- C7: at a scheduler trigger with the illuminated flag true, `sendWiggle`
requests a delta `(dx, dy)` with `dx, dy ∈ {+1, -1}` immediately followed by
the exact opposite `(-dx, -dy)` within the same invocation (hence before the
next trigger), so the net displacement is zero; with the flag false it
requests no movement. -/
theorem wiggle_net_zero (s : WiggleState) (light : Bool) (rnd : Int)
    (rx ry : Nat) (ht : s.wiggleSec + 1 ≥ s.nextWiggleTime) :
    (light = true → ∃ dx dy : Int, (dx = 1 ∨ dx = -1) ∧ (dy = 1 ∨ dy = -1) ∧
      (sendWiggle s light rnd rx ry).2 = [(dx, dy), (-dx, -dy)]) ∧
    (light = false → (sendWiggle s light rnd rx ry).2 = []) ∧
    ((sendWiggle s light rnd rx ry).2.map Prod.fst).sum = 0 ∧
    ((sendWiggle s light rnd rx ry).2.map Prod.snd).sum = 0 := by
  simp only [sendWiggle, if_pos ht]
  cases light with
  | false => simp
  | true =>
    simp only [if_pos rfl]
    refine ⟨fun _ => ⟨if rx = 0 then 1 else -1, if ry = 0 then 1 else -1,
      ?_, ?_, rfl⟩, by simp, ?_, ?_⟩ <;>
      by_cases hrx : rx = 0 <;> by_cases hry : ry = 0 <;>
      simp [hrx, hry]

/-- Witness for C7: at a firing trigger with the flag on, the two requested
deltas cancel componentwise; with the flag off nothing is requested. -/
theorem wiggle_net_zero_witness :
    (((sendWiggle { wiggleSec := 9, nextWiggleTime := 10 } true 2 0 1).2.map
        Prod.fst).sum = 0) ∧
    (((sendWiggle { wiggleSec := 9, nextWiggleTime := 10 } true 2 0 1).2.map
        Prod.snd).sum = 0) ∧
    (sendWiggle { wiggleSec := 9, nextWiggleTime := 10 } false 2 0 1).2 = [] := by
  have ht := wiggle_net_zero { wiggleSec := 9, nextWiggleTime := 10 } true 2 0 1
    (by decide)
  have hf := wiggle_net_zero { wiggleSec := 9, nextWiggleTime := 10 } false 2 0 1
    (by decide)
  exact ⟨ht.2.2.1, ht.2.2.2, hf.2.1 rfl⟩

/-- C8: whenever the trigger fires, the freshly generated interval
`wigglePeriod + random(-wigglePeriodVariation, wigglePeriodVariation + 1)`,
clamped below at 3, lies within the clamp minimum and
`wigglePeriod + wigglePeriodVariation`; with the default configuration
(base 10, variation 3, minimum 3) it lies in `{7, …, 13}`. -/
theorem wiggle_interval_bounds (s : WiggleState) (light : Bool) (rnd : Int)
    (rx ry : Nat) (ht : s.wiggleSec + 1 ≥ s.nextWiggleTime)
    (h1 : -wigglePeriodVariation ≤ rnd) (h2 : rnd ≤ wigglePeriodVariation) :
    3 ≤ (sendWiggle s light rnd rx ry).1.nextWiggleTime ∧
    7 ≤ (sendWiggle s light rnd rx ry).1.nextWiggleTime ∧
    (sendWiggle s light rnd rx ry).1.nextWiggleTime ≤
      wigglePeriod + wigglePeriodVariation := by
  simp only [wigglePeriodVariation] at h1 h2
  simp only [sendWiggle, if_pos ht, wigglePeriod, wigglePeriodVariation]
  cases light <;> simp <;> split <;> omega

/-- Witness for C8: a boundary draw (`rnd = 3`) at a firing trigger lands the
next interval at the top of the allowed range. -/
theorem wiggle_interval_bounds_witness :
    3 ≤ (sendWiggle { wiggleSec := 9, nextWiggleTime := 10 } true 3 0 0).1.nextWiggleTime ∧
    7 ≤ (sendWiggle { wiggleSec := 9, nextWiggleTime := 10 } true 3 0 0).1.nextWiggleTime ∧
    (sendWiggle { wiggleSec := 9, nextWiggleTime := 10 } true 3 0 0).1.nextWiggleTime ≤ 13 := by
  have h := wiggle_interval_bounds { wiggleSec := 9, nextWiggleTime := 10 }
    true 3 0 0 (by decide) (by decide) (by decide)
  exact ⟨h.1, h.2.1, h.2.2⟩

/-- C10: `lightStatus` is initialized to true at startup, so until the first
sudden-decrease classification: every firing scheduler trigger that reads the
flag as true requests a (nonempty) wiggle, and any classification cycle in
which the sudden-decrease condition does not hold keeps the flag true — in
particular, powering on in a dark room with no sudden light change leaves
the device wiggling indefinitely. -/
theorem initial_light_true_wiggles :
    (∀ reads : Nat → Int, (setupDetectState reads).lightStatus = true) ∧
    (∀ (s : WiggleState) (rnd : Int) (rx ry : Nat),
      s.wiggleSec + 1 ≥ s.nextWiggleTime →
      (sendWiggle s true rnd rx ry).2 ≠ []) ∧
    (∀ (s : DetectState) (sum : Int), s.lightStatus = true →
      ¬(percentChangeOf s.priorSum sum < -SUDDEN_CHANGE_THRESHOLD ∧
          |rateOfChangeOf (s.sumHistory s.historyPosition) sum| >
            CHANGE_RATE_THRESHOLD) →
      (classifyCycle s sum).lightStatus = true) := by
  refine ⟨fun _ => rfl, ?_, ?_⟩
  · intro s rnd rx ry ht
    simp only [sendWiggle, if_pos ht, if_pos rfl]
    simp
  · intro s sum hl hdown
    simp only [classifyCycle]
    rw [if_neg hdown, hl]
    simp [ite_self]

/-- Witness for C10: at startup the flag is true; a firing trigger with the
flag on requests movement; a cycle with no change at all keeps the flag on. -/
theorem initial_light_true_wiggles_witness :
    (setupDetectState (fun _ => 300)).lightStatus = true ∧
    (sendWiggle { wiggleSec := 9, nextWiggleTime := 10 } true 2 1 1).2 ≠ [] ∧
    (classifyCycle (steadyState 100 true) 100).lightStatus = true := by
  have h := initial_light_true_wiggles
  exact ⟨h.1 _, h.2.1 { wiggleSec := 9, nextWiggleTime := 10 } 2 1 1 (by decide),
    h.2.2 _ 100 (by decide) (by decide)⟩

/-- Helper: a truncating division of a nonnegative dividend by a larger
positive divisor lies in `[0, 1]`. -/
lemma tdiv_nonneg_le_one {a b : Int} (ha : 0 <= a) (hb : 0 < b) (hab : a <= b) :
    0 <= Int.tdiv a b /\ Int.tdiv a b <= 1 := by
  rw [Int.tdiv_eq_ediv ha hb.le]
  refine ⟨Int.ediv_nonneg ha hb.le, ?_⟩
  calc a / b <= b / b := Int.ediv_le_ediv hb hab
  _ = 1 := Int.ediv_self hb.ne'

/-- Helper: the dusk-simulation window sums are positive for positive `d`. -/
lemma duskSum_pos {d : Int} (hd : 0 < d) (k : Nat) : 0 < duskSum d k := by
  unfold duskSum
  have h : (0 : Int) <= d * k := by positivity
  omega

/-- Helper: consecutive dusk-simulation sums differ by exactly `d`, one
percent of the baseline. -/
lemma duskSum_step_sub (d : Int) (k : Nat) :
    duskSum d (k + 1) - duskSum d k = d := by
  unfold duskSum
  push_cast
  ring

/-- Helper: each dusk-simulation cycle sees a `percentChange` in `[0, 1]`,
far below the sudden-change threshold. -/
lemma percentChange_dusk {d : Int} (hd : 0 < d) (k : Nat) :
    0 <= percentChangeOf (duskSum d k) (duskSum d (k + 1)) /\
    percentChangeOf (duskSum d k) (duskSum d (k + 1)) <= 1 := by
  unfold percentChangeOf
  rw [duskSum_step_sub]
  apply tdiv_nonneg_le_one
  · positivity
  · exact duskSum_pos hd k
  · unfold duskSum
    have h : (0 : Int) <= d * k := by positivity
    omega

/-- Helper: stepping the 5-slot history ring once and then offsetting by 4
returns to the slot just written. -/
lemma fin5_wrap : ∀ q : Fin HISTORY_SIZE, q + 1 + ⟨4, by norm_num⟩ = q := by
  decide

/-- Helper: ring-index arithmetic in `Fin HISTORY_SIZE` for the non-wrapping
offsets. -/
lemma fin5_step_facts :
    ∀ q j : Fin HISTORY_SIZE, j ≠ ⟨4, by norm_num⟩ →
      q + 1 + j = q + (j + 1) ∧ q + (j + 1) ≠ q ∧
      ((j + 1 : Fin HISTORY_SIZE) : Nat) = (j : Nat) + 1 ∧ (j : Nat) ≤ 3 := by
  decide

/-- Helper invariant for the dusk simulation: after `k` cycles the state
holds `priorSum = duskSum d k`, the history ring holds (relative to the
current position) the five most recent sums, the history stays primed, and
the flag never moves. -/
lemma duskInv (d : Int) (b : Bool) (hd : 0 < d) (k : Nat) :
    (duskState d b k).priorSum = duskSum d k ∧
    (∀ j : Fin HISTORY_SIZE,
      (duskState d b k).sumHistory ((duskState d b k).historyPosition + j) =
        duskSum d (k - (4 - (j : Nat)))) ∧
    (duskState d b k).historyFilled = true ∧
    (duskState d b k).lightStatus = b := by
  induction k with
  | zero =>
    refine ⟨rfl, ?_, rfl, rfl⟩
    intro j
    simp [duskState, steadyState]
  | succ k ih =>
    obtain ⟨hp, hh, hf, hl⟩ := ih
    have hpc := percentChange_dusk hd k
    refine ⟨by simp [duskState, classifyCycle], ?_,
      by simp [duskState, classifyCycle, hf, ite_self], ?_⟩
    · intro j
      show Function.update (duskState d b k).sumHistory
          (duskState d b k).historyPosition (duskSum d (k + 1))
          ((duskState d b k).historyPosition + 1 + j) =
        duskSum d (k + 1 - (4 - (j : Nat)))
      by_cases hj : j = ⟨4, by norm_num⟩
      · subst hj
        rw [fin5_wrap, Function.update_same,
          show ((⟨4, by norm_num⟩ : Fin HISTORY_SIZE) : Nat) = 4 from rfl]
        congr 1
      · obtain ⟨e1, e2, e3, e4⟩ :=
          fin5_step_facts (duskState d b k).historyPosition j hj
        rw [e1, Function.update_noteq e2, hh (j + 1), e3]
        congr 1
        omega
    · show (classifyCycle (duskState d b k) (duskSum d (k + 1))).lightStatus = b
      rw [classifyCycle_lightStatus _ _ hf, hp]
      rw [if_neg ?hc1, if_neg ?hc2]
      · exact hl
      case hc1 =>
        intro h
        have h1 := hpc.2
        simp only [SUDDEN_CHANGE_THRESHOLD] at h
        omega
      case hc2 =>
        intro h
        have h1 := hpc.1
        simp only [SUDDEN_CHANGE_THRESHOLD] at h
        omega

set_option maxRecDepth 8000 in
set_option maxHeartbeats 1600000 in
/-- C5 counterexample: in the decreasing (dusk) direction of the linear
one-percent-of-baseline-per-cycle drift the flag does not stay put.  With
`d = 1` — window sums `100, 99, 98, …` — the flag is still true after 94
cycles, but cycle 95 (prior sum `6`, window sum `5`) computes
`percentChange = -16 < -15` and `rateOfChange = -10` with `|-10| > 5`, so
the sudden-decrease branch fires and flips the flag to false: on this trace
the rate criterion holds rather than fails, because both percentages are
measured against the shrinking current sums, not the baseline. -/
theorem dusk_decline_flips_cex :
    (duskFall 1 true 94).lightStatus = true ∧
    percentChangeOf (duskFall 1 true 94).priorSum (100 * 1 - 1 * 95) <
      -SUDDEN_CHANGE_THRESHOLD ∧
    |rateOfChangeOf ((duskFall 1 true 94).sumHistory
        (duskFall 1 true 94).historyPosition) (100 * 1 - 1 * 95)| >
      CHANGE_RATE_THRESHOLD ∧
    (duskFall 1 true 95).lightStatus = false := by
  decide

/-- C5 (amended): in the rising (dawn) direction of the linear drift — after
priming, the window sum rises by one percent of the baseline per cycle for
any number of cycles — the illuminated flag never changes, and the rate
criterion fails on every cycle (`|rateOfChange|` stays at or below the
threshold) even though the cumulative drift eventually exceeds the
sudden-change threshold.  In the decreasing (dusk) direction the property
does not hold: a sustained decline eventually meets both criteria and flips
the flag, as the cycle-95 counterexample above shows. -/
theorem dusk_drift_flag_constant (d : Int) (b : Bool) (hd : 0 < d) (k : Nat) :
    (duskState d b k).lightStatus = b /\
    |rateOfChangeOf
        ((duskState d b k).sumHistory (duskState d b k).historyPosition)
        (duskSum d (k + 1))| <= CHANGE_RATE_THRESHOLD := by
  obtain ⟨hp, hh, hf, hl⟩ := duskInv d b hd k
  refine ⟨hl, ?_⟩
  have h0 := hh 0
  rw [add_zero] at h0
  rw [h0]
  have hzero : ((0 : Fin HISTORY_SIZE) : Nat) = 0 := rfl
  rw [hzero]
  have hm1 : k - 4 <= k := Nat.sub_le k 4
  have hm2 : k <= (k - 4) + 4 := by omega
  have hrb : 0 <= rateOfChangeOf (duskSum d (k - (4 - 0))) (duskSum d (k + 1)) /\
      rateOfChangeOf (duskSum d (k - (4 - 0))) (duskSum d (k + 1)) <= 1 := by
    unfold rateOfChangeOf
    apply tdiv_nonneg_le_one
    · have hs : 0 <= duskSum d (k + 1) - duskSum d (k - (4 - 0)) := by
        unfold duskSum
        push_cast
        have hmono : ((k - 4 : Nat) : Int) <= (k : Int) + 1 := by
          omega
        nlinarith
      positivity
    · have hpos := duskSum_pos hd (k - (4 - 0))
      have hcast : ((HISTORY_SIZE : Nat) : Int) = 5 := rfl
      rw [hcast]
      positivity
    · have hcast : ((HISTORY_SIZE : Nat) : Int) = 5 := rfl
      rw [hcast]
      unfold duskSum
      push_cast
      have hc1 : ((k : Int) + 1) - ((k - 4 : Nat) : Int) <= 5 := by omega
      have hc0 : (0 : Int) <= ((k - 4 : Nat) : Int) := by positivity
      nlinarith
  simp only [CHANGE_RATE_THRESHOLD]
  rw [abs_of_nonneg hrb.1]
  omega



/-- Helper invariant for the light-switch simulation: from the first jump
cycle onwards, `priorSum` sits at the new level `13 * c` and the flag is
on. -/
lemma switchInv (c : Int) (b : Bool) (hc : 0 < c) :
    ∀ k : Nat, 1 ≤ k →
      (switchState c b k).priorSum = 13 * c ∧
      (switchState c b k).lightStatus = true := by
  intro k
  induction k with
  | zero => omega
  | succ k ih =>
    intro _
    by_cases hk : 1 ≤ k
    · obtain ⟨hp, hl⟩ := ih hk
      refine ⟨by simp [switchState, classifyCycle], ?_⟩
      show (classifyCycle (switchState c b k) (13 * c)).lightStatus = true
      have hpc : percentChangeOf (switchState c b k).priorSum (13 * c) = 0 := by
        rw [hp]
        unfold percentChangeOf
        rw [show ((13 * c : Int) - 13 * c) * 100 = 0 by ring, Int.zero_tdiv]
      simp only [classifyCycle, hpc]
      have n1 : ¬((0 : Int) > SUDDEN_CHANGE_THRESHOLD ∧
          |rateOfChangeOf ((switchState c b k).sumHistory
            (switchState c b k).historyPosition) (13 * c)| >
            CHANGE_RATE_THRESHOLD) := by
        intro h
        have h1 := h.1
        simp only [SUDDEN_CHANGE_THRESHOLD] at h1
        omega
      have n2 : ¬((0 : Int) < -SUDDEN_CHANGE_THRESHOLD ∧
          |rateOfChangeOf ((switchState c b k).sumHistory
            (switchState c b k).historyPosition) (13 * c)| >
            CHANGE_RATE_THRESHOLD) := by
        intro h
        have h1 := h.1
        simp only [SUDDEN_CHANGE_THRESHOLD] at h1
        omega
      rw [if_neg n1, if_neg n2, ite_self]
      exact hl
    · have hk0 : k = 0 := by omega
      subst hk0
      have h10 : (0 : Int) < 10 * c := by linarith
      have h50 : (0 : Int) < 10 * c * 5 := by linarith
      refine ⟨by simp [switchState, classifyCycle], ?_⟩
      show (classifyCycle (steadyState (10 * c) b) (13 * c)).lightStatus = true
      rw [classifyCycle_lightStatus _ _ rfl]
      have hpc : percentChangeOf (steadyState (10 * c) b).priorSum (13 * c) = 30 := by
        show percentChangeOf (10 * c) (13 * c) = 30
        unfold percentChangeOf
        rw [show ((13 * c : Int) - 10 * c) * 100 = 30 * (10 * c) by ring]
        exact Int.mul_tdiv_cancel 30 h10.ne'
      have hrc : rateOfChangeOf
          ((steadyState (10 * c) b).sumHistory (steadyState (10 * c) b).historyPosition)
          (13 * c) = 6 := by
        show rateOfChangeOf (10 * c) (13 * c) = 6
        unfold rateOfChangeOf
        rw [show ((HISTORY_SIZE : Nat) : Int) = 5 from rfl,
          show ((13 * c : Int) - 10 * c) * 100 = 6 * (10 * c * 5) by ring]
        exact Int.mul_tdiv_cancel 6 h50.ne'
      rw [hpc, hrc, if_pos (by decide)]

/-- C6: in the light-switch simulation — after priming, the window sum jumps
from a positive baseline `B = 10 * c` to `1.3 x B = 13 * c` within one cycle
and stays there — the illuminated flag becomes true on the jump cycle and
remains true on every subsequent cycle (the trace contains no comparable
drop). -/
theorem switch_jump_flag_on (c : Int) (b : Bool) (hc : 0 < c) (k : Nat)
    (hk : 1 ≤ k) : (switchState c b k).lightStatus = true :=
  (switchInv c b hc k hk).2

/-- Witness for C5: with `d = 1`, after 20 cycles the cumulative change of
20 percent exceeds the sudden threshold, yet the flag is still on and the
next cycle's rate is still within the rate threshold. -/
theorem dusk_drift_flag_constant_witness :
    (0 : Int) < 1 ∧
    percentChangeOf (duskSum 1 0) (duskSum 1 20) > SUDDEN_CHANGE_THRESHOLD ∧
    (duskState 1 true 20).lightStatus = true ∧
    |rateOfChangeOf
        ((duskState 1 true 20).sumHistory (duskState 1 true 20).historyPosition)
        (duskSum 1 21)| ≤ CHANGE_RATE_THRESHOLD := by
  have h := dusk_drift_flag_constant 1 true (by decide) 20
  exact ⟨by decide, by decide, h.1, h.2⟩

/-- Witness for C6: with baseline `20` jumping to `26`, the flag (previously
off) is on at the jump cycle and still on five cycles later. -/
theorem switch_jump_flag_on_witness :
    (0 : Int) < 2 ∧ (switchState 2 false 1).lightStatus = true ∧
    (switchState 2 false 6).lightStatus = true := by
  have h1 := switch_jump_flag_on 2 false (by decide) 1 (by decide)
  have h6 := switch_jump_flag_on 2 false (by decide) 6 (by decide)
  exact ⟨by decide, h1, h6⟩

end MouseWiggler
